import Mathlib

/-!
Verification of the POC-AppSecret repository: a shallow embedding of the
secret-generator iApp (`src/unnamed/part_000`) and of the stateful
full-flow coordinator (`src/scripts/test-full-flow.js`), with theorems
checking the natural-language specification's claims against the code.

Conventions of the embedding:
* JavaScript values that may be `undefined`/`null` are `Option`s; JS
  truthiness of strings is `truthyS` (the empty string is falsy).
* `crypto.randomBytes` is a parameter `rb : Nat → Nat → Nat`: `rb k i` is
  byte `i` of the `k`-th `randomBytes` call of the function at hand;
  bytes are normalised `% 256` exactly where the source indexes them.
* `createHash('sha256')....digest('hex')` is an abstract parameter
  `sha256hex : String → String` (node's crypto is outside the repo).
* Awaited remote calls are parameters describing their outcome
  (`PushAttempt`, `Except String _` for a stage that may throw).
-/

namespace POCAppSecret

/-- JS truthiness of a string: only the empty string is falsy. -/
def truthyS (s : String) : Bool := s ≠ ""

/-- `String.prototype.toLowerCase()` for the ASCII strings at hand,
character by character. -/
def jsToLower (s : String) : String := String.mk (s.toList.map Char.toLower)

/-- JS truthiness of a possibly-undefined string. -/
def truthyOS : Option String → Bool
  | none => false
  | some s => truthyS s

/-- JS `a || b` for a possibly-undefined string with a string default. -/
def jsOr (a : Option String) (b : String) : String :=
  match a with
  | some s => if truthyS s then s else b
  | none => b

/-- JS `a || null` for a possibly-undefined string. -/
def jsOrNull (a : Option String) : Option String :=
  match a with
  | some s => if truthyS s then some s else none
  | none => none

/-! ## Secret Generator (src/unnamed/part_000) -/

def alphanumericChars : String :=
  "ABCDEFGHIJKLMNOPQRSTUVWXYZabcdefghijklmnopqrstuvwxyz0123456789"

def alphanumericSpecialChars : String :=
  "ABCDEFGHIJKLMNOPQRSTUVWXYZabcdefghijklmnopqrstuvwxyz0123456789!@#$%^&*()_+-=[]\x7b\x7d|;:,.<>?"

def hexChars : String := "0123456789abcdef"

def numericChars : String := "0123456789"

def alphaChars : String :=
  "ABCDEFGHIJKLMNOPQRSTUVWXYZabcdefghijklmnopqrstuvwxyz"

/-- The `charsets` table of `generateRandomString`; `none` for a name the
table does not hold. -/
def charsets : String → Option String
  | "alphanumeric" => some alphanumericChars
  | "alphanumericSpecial" => some alphanumericSpecialChars
  | "hex" => some hexChars
  | "numeric" => some numericChars
  | "alpha" => some alphaChars
  | _ => none

/-- `generateRandomString(length, charset)`: one char of the chosen charset
per random byte, indexed `bytes[i] % chars.length`. -/
def generateRandomString (bytes : Nat → Nat) (length : Nat) (charset : String) : String :=
  let chars := ((charsets charset).getD alphanumericChars).toList
  String.mk ((List.range length).map fun i => chars.getD (bytes i % 256 % chars.length) 'A')

/-- One byte as two lowercase hex digits. -/
def byteToHex (b : Nat) : List Char :=
  [hexChars.toList.getD (b % 256 / 16) '0', hexChars.toList.getD (b % 256 % 16) '0']

/-- A byte list as a lowercase hex string. -/
def toHexStr (bs : List Nat) : String :=
  String.mk (bs.flatMap byteToHex)

/-- `generateUUID()`: 16 random bytes with the version nibble forced to 4
and the variant bits forced to 10, written 8-4-4-4-12. -/
def generateUUID (bytes : Nat → Nat) : String :=
  let b : Nat → Nat := fun i =>
    if i = 6 then ((bytes 6 % 256) &&& 0x0f) ||| 0x40
    else if i = 8 then ((bytes 8 % 256) &&& 0x3f) ||| 0x80
    else bytes i % 256
  let hex := (List.range 16).flatMap fun i => byteToHex (b i)
  String.mk (hex.take 8) ++ "-" ++ String.mk ((hex.drop 8).take 4) ++ "-" ++
    String.mk ((hex.drop 12).take 4) ++ "-" ++ String.mk ((hex.drop 16).take 4) ++ "-" ++
    String.mk (hex.drop 20)

def base64StdAlphabet : List Char :=
  "ABCDEFGHIJKLMNOPQRSTUVWXYZabcdefghijklmnopqrstuvwxyz0123456789+/".toList

def base64UrlAlphabet : List Char :=
  "ABCDEFGHIJKLMNOPQRSTUVWXYZabcdefghijklmnopqrstuvwxyz0123456789-_".toList

def b64c (alpha : List Char) (n : Nat) : Char := alpha.getD (n % 64) 'A'

/-- Base64 encoding of a byte list over a given alphabet, with or without
padding (node's `base64` pads, `base64url` does not). -/
def base64Groups (alpha : List Char) (pad : Bool) : List Nat → List Char
  | b0 :: b1 :: b2 :: rest =>
      b64c alpha (b0 / 4) :: b64c alpha (b0 % 4 * 16 + b1 / 16) ::
        b64c alpha (b1 % 16 * 4 + b2 / 64) :: b64c alpha (b2 % 64) ::
        base64Groups alpha pad rest
  | [b0, b1] =>
      [b64c alpha (b0 / 4), b64c alpha (b0 % 4 * 16 + b1 / 16),
        b64c alpha (b1 % 16 * 4)] ++ (if pad then ['='] else [])
  | [b0] =>
      [b64c alpha (b0 / 4), b64c alpha (b0 % 4 * 16)] ++ (if pad then ['=', '='] else [])
  | [] => []

/-- `Buffer.toString('base64')`. -/
def toBase64 (bs : List Nat) : String :=
  String.mk (base64Groups base64StdAlphabet true (bs.map (· % 256)))

/-- `Buffer.toString('base64url')`. -/
def toBase64Url (bs : List Nat) : String :=
  String.mk (base64Groups base64UrlAlphabet false (bs.map (· % 256)))

/-- UTF-8 bytes of an ASCII string. -/
def asciiBytes (s : String) : List Nat := s.toList.map Char.toNat

/-- `JSON.stringify({ alg: 'HS256', typ: 'JWT' })`. -/
def jwtHeaderJson : String := "\x7b\"alg\":\"HS256\",\"typ\":\"JWT\"\x7d"

/-- `JSON.stringify({ iat, jti })` for the token payload. -/
def jwtPayloadJson (iat : Nat) (jti : String) : String :=
  "\x7b\"iat\":" ++ toString iat ++ ",\"jti\":\"" ++ jti ++ "\"\x7d"

/-- The type-specific `metadata` objects of `generateSecret`. -/
inductive Metadata where
  | apiKeyFmt (keyLength : Nat)
  | strongPassword (length : Nat) (hasSpecialChars : Bool)
  | jwtLike
  | uuidV4
  | hexFmt (bits : Nat)
  | ethereumCompatible (bits : Nat)
  | base64Fmt (bytes : Nat)
deriving DecidableEq

/-- The object `generateSecret` returns. -/
structure SecretData where
  secret : String
  hash : String
  type : String
  generatedAt : String
  metadata : Metadata
deriving DecidableEq

/-- `generateSecret(secretType)`: switch on the lowercased type, default
and `'random'` falling through to 32 random bytes in base64; the digest is
the SHA-256 (hex) of the exact assembled value. `epochMs` is `Date.now()`. -/
def generateSecret (sha256hex : String → String) (rb : Nat → Nat → Nat)
    (timestamp : String) (epochMs : Nat) (secretType : String) : SecretData :=
  let vm : String × Metadata :=
    match jsToLower secretType with
    | "api-key" =>
        let pfx := jsToLower (generateRandomString (rb 0) 4 "alpha")
        let key := generateRandomString (rb 1) 32 "alphanumeric"
        (pfx ++ "_" ++ key, .apiKeyFmt 32)
    | "password" =>
        (generateRandomString (rb 0) 24 "alphanumericSpecial", .strongPassword 24 true)
    | "token" =>
        let header := toBase64Url (asciiBytes jwtHeaderJson)
        let payload :=
          toBase64Url (asciiBytes (jwtPayloadJson (epochMs / 1000) (generateUUID (rb 0))))
        let signature := toBase64Url ((List.range 32).map (rb 1))
        (header ++ "." ++ payload ++ "." ++ signature, .jwtLike)
    | "uuid" => (generateUUID (rb 0), .uuidV4)
    | "hex" => (toHexStr ((List.range 32).map (rb 0)), .hexFmt 256)
    | "private-key" => ("0x" ++ toHexStr ((List.range 32).map (rb 0)), .ethereumCompatible 256)
    | _ => (toBase64 ((List.range 32).map (rb 0)), .base64Fmt 32)
  { secret := vm.1
    hash := sha256hex vm.1
    type := secretType
    generatedAt := timestamp
    metadata := vm.2 }

/-! ## Secret Store Client (src/unnamed/part_000, `pushSecretToSMS`) -/

/-- What `pushSecretToSMS` returns. -/
structure PushResult where
  success : Bool
  pushedSecretName : Option String
  address : Option String
  error : Option String
deriving DecidableEq

/-- Outcome of the awaited `iexec.app.pushAppSecret` call (and of the SDK
setup before it): it resolves with a boolean or throws with a message. -/
inductive PushAttempt where
  | resolved (isPushed : Bool)
  | threw (msg : String)
deriving DecidableEq

/-- `pushSecretToSMS(targetAppAddress, ..)`: invalid/missing address is an
early failure; a resolved `true` succeeds; a resolved `false` raises and is
caught; any thrown error is caught and reported in `error`. `isAddr`
models ethers' `isAddress`; `wallet` the address of the dedicated key. -/
def pushSecretToSMS (isAddr : String → Bool) (wallet : String)
    (targetAppAddress : Option String) (attempt : PushAttempt) : PushResult :=
  if ¬ (truthyOS targetAppAddress ∧ isAddr (targetAppAddress.getD "")) then
    { success := false, pushedSecretName := none, address := none
      error := some "Invalid or missing Consume App Address. Cannot push App Secret." }
  else
    match attempt with
    | .resolved true =>
        { success := true, pushedSecretName := some "IEXEC_APP_DEVELOPER_SECRET"
          address := some wallet, error := none }
    | .resolved false =>
        { success := false, pushedSecretName := none, address := none
          error := some "Failed to push App Secret (SDK returned false)" }
    | .threw m =>
        { success := false, pushedSecretName := none, address := none, error := some m }

/-! ## Producer main (src/unnamed/part_000, `main`) -/

/-- The parsed App Secret configuration (`parseAppSecret`). -/
structure AppConfig where
  privateKey : Option String
  smsUrl : String
  rpcUrl : String
deriving DecidableEq

/-- The `result.json` object the producer writes (`secretInfo` and
`smsInfo` flattened; `consumeInstructions` fields derived from the same
data are omitted). The raw secret value is not a field. -/
structure ProducerOutput where
  success : Bool
  secretName : String
  dedicatedAddress : Option String
  secretInfoHash : String
  secretInfoType : String
  secretInfoGeneratedAt : String
  secretInfoMetadata : Metadata
  smsPushed : Bool
  smsError : Option String
deriving DecidableEq

/-- The output object built at the end of the producer `main` from the
generated secret and the push result. -/
def buildOutput (pushResult : PushResult) (secretName : String) (sd : SecretData) :
    ProducerOutput :=
  { success := pushResult.success
    secretName := jsOr pushResult.pushedSecretName secretName
    dedicatedAddress := pushResult.address
    secretInfoHash := sd.hash
    secretInfoType := sd.type
    secretInfoGeneratedAt := sd.generatedAt
    secretInfoMetadata := sd.metadata
    smsPushed := pushResult.success
    smsError := jsOrNull pushResult.error }

/-- How a producer run ends: early error output when no App Secret is
configured, otherwise a completed run with its `result.json`. -/
inductive ProducerRun where
  | noAppSecret
  | completed (out : ProducerOutput)
deriving DecidableEq

/-- The producer `main`: parse configuration, choose the target address
(args or `CONSUME_APP_ADDRESS`), generate the secret, push when a target
exists, and write the result object. Push failure never aborts the run. -/
def producerMain (sha256hex : String → String) (rb : Nat → Nat → Nat)
    (timestamp : String) (epochMs : Nat) (appConfig : Option AppConfig)
    (consumeAppAddress : Option String) (secretName secretType : String)
    (defaultConsumeApp : Option String) (isAddr : String → Bool) (wallet : String)
    (attempt : PushAttempt) : ProducerRun :=
  match appConfig with
  | none => .noAppSecret
  | some cfg =>
    if ¬ truthyOS cfg.privateKey then .noAppSecret
    else
      let targetAddress :=
        if truthyOS consumeAppAddress then consumeAppAddress else defaultConsumeApp
      let secretData := generateSecret sha256hex rb timestamp epochMs secretType
      let pushResult :=
        if truthyOS targetAddress then
          pushSecretToSMS isAddr wallet targetAddress attempt
        else
          { success := false, pushedSecretName := none, address := none
            error := some "No Consume App Address provided" }
      .completed (buildOutput pushResult secretName secretData)

/-! ## Task Execution Driver (src/scripts/test-full-flow.js, `waitForTask`) -/

/-- The task view a status-feed event carries. -/
structure TaskView where
  statusName : String
deriving DecidableEq

/-- One emission of the subscribed `obsTask` feed: a `next` status event
(whose task may be absent) or an `error` callback invocation. -/
inductive FeedEvent where
  | status (task : Option TaskView) (message : String)
  | feedError (message : String)
deriving DecidableEq

/-- How the promise wrapped around the subscription ends: resolved with
the completed task, resolved empty by the feed's `complete`, rejected on a
FAILED/TIMEDOUT status, or still pending. -/
inductive WaitOutcome where
  | resolvedTask (t : TaskView)
  | resolvedEmpty
  | rejected (message : String)
  | pending
deriving DecidableEq

/-- The settling effect of one feed event on the promise: COMPLETED
resolves, FAILED/TIMEDOUT rejects, everything else (non-terminal statuses,
absent tasks, error callbacks) settles nothing. -/
def settleEvent : FeedEvent → Option WaitOutcome
  | .status (some t) _ =>
      if t.statusName = "COMPLETED" then some (.resolvedTask t)
      else if t.statusName = "FAILED" ∨ t.statusName = "TIMEDOUT" then
        some (.rejected ("Task ended with status " ++ t.statusName))
      else none
  | .status none _ => none
  | .feedError _ => none

/-- `waitForTask`: the first settling event decides the promise; if the
feed emits `completes` at its end the promise resolves empty; otherwise it
stays pending — the subscription installs no timer of its own. -/
def waitForTask : List FeedEvent → Bool → WaitOutcome
  | [], completes => if completes then .resolvedEmpty else .pending
  | e :: rest, completes =>
      match settleEvent e with
      | some r => r
      | none => waitForTask rest completes

/-! ## Result Fetcher (src/scripts/test-full-flow.js, `fetchResult`) -/

/-- `fetchResult`: the whole transport/unzip/parse pipeline is wrapped in
one `try`; any error yields `null`, success the parsed document. -/
def fetchResult {α : Type} (raw : Except String α) : Option α :=
  match raw with
  | .ok d => some d
  | .error _ => none

/-! ## Provisioning Coordinator (src/scripts/test-full-flow.js) -/

/-- The parsed `.secret-lock.json` document; fields a JSON file may lack
are `Option`s. -/
structure LockData where
  appAddress : Option String
  secretHash : Option String
  timestamp : Option String
deriving DecidableEq

/-- `getLockState()`: a missing or unparsable file is no record; a parsed
record counts only when its `appAddress` equals `CONFIG.consumeApp`. -/
def getLockState (lockFile : Option LockData) (consumeApp : String) : Option LockData :=
  match lockFile with
  | none => none
  | some data => if data.appAddress = some consumeApp then some data else none

/-- `saveLockState(hash)`: the written record holds the consumer app
address, the digest and a timestamp — nothing else. -/
def saveLockState (consumeApp hash nowIso : String) : LockData :=
  { appAddress := some consumeApp, secretHash := some hash, timestamp := some nowIso }

/-- The fields of the producer's fetched `result.json` that the
coordinator reads. -/
structure TargetData where
  success : Bool
  secretInfoHash : Option String
  generatedSecretSha256 : Option String
deriving DecidableEq

/-- The fields of the consumer's fetched `result.json` that the
coordinator reads. -/
structure ConsumeData where
  hashesSha256 : Option String
  preview : Option String
deriving DecidableEq

/-- Outcome of `setupTargetAppPermissions`: the push resolved true, or it
threw an error whose message contains `already exists` (warned and
swallowed), or it threw/resolved-false otherwise (rethrown). -/
inductive SetupOutcome where
  | pushedOk
  | threwAlreadyExists
  | threwOther (msg : String)
deriving DecidableEq

/-- Where a run aborted (`process.exit(1)` from a catch), when it did. -/
inductive AbortStage where
  | setupStage
  | producerStage
  | consumerStage
deriving DecidableEq

/-- The verdict printed by STEP 3: `matched` is the combined truthiness
and equality test; `missingExpectedNote` the extra line printed on failure
when the expected hash is absent. No other reason is distinguished. -/
structure VerifyOutcome where
  matched : Bool
  missingExpectedNote : Bool
deriving DecidableEq

/-- The STEP 3 comparison of `main`. -/
def verifyModel (targetAppHash consumeAppHash : Option String) : VerifyOutcome :=
  if truthyOS targetAppHash && truthyOS consumeAppHash && targetAppHash == consumeAppHash then
    { matched := true, missingExpectedNote := false }
  else
    { matched := false, missingExpectedNote := !truthyOS targetAppHash }

/-- `targetAppHash = targetData.secretInfo?.hash`, then the
`generatedSecret.sha256` legacy fallback when that is falsy. -/
def extractTargetHash : Option TargetData → Option String
  | none => none
  | some td =>
      if truthyOS td.secretInfoHash then td.secretInfoHash
      else if truthyOS td.generatedSecretSha256 then td.generatedSecretSha256
      else td.secretInfoHash

/-- Everything observable about one coordinator run. -/
structure RunResult where
  abortedAt : Option AbortStage
  producerRan : Bool
  reachedConsumer : Bool
  savedLock : Option LockData
  expectedHash : Option String
  observedHash : Option String
  verification : Option VerifyOutcome
deriving DecidableEq

/-- STEP 2 and STEP 3 of `main`: run the consumer app; its failure exits
the process; otherwise read `hashes.sha256` from its fetched result and
compare. -/
def consumerStage (producerRan : Bool) (saved : Option LockData) (expected : Option String)
    (consumerExec : Except String (Option ConsumeData)) : RunResult :=
  match consumerExec with
  | .error _ =>
      { abortedAt := some .consumerStage, producerRan := producerRan
        reachedConsumer := true, savedLock := saved, expectedHash := expected
        observedHash := none, verification := none }
  | .ok consumeData =>
      let observed :=
        match consumeData with
        | some d => d.hashesSha256
        | none => none
      { abortedAt := none, producerRan := producerRan, reachedConsumer := true
        savedLock := saved, expectedHash := expected, observedHash := observed
        verification := some (verifyModel expected observed) }

/-- STEP 1 of `main` followed by the rest of the run: a throw from the
producer execution exits the process; otherwise the digest is extracted
from the fetched result and the lock is saved only when it is truthy —
`targetData.success` is never consulted. -/
def provisionThenConsume (consumeApp : String)
    (producerExec : Except String (Option TargetData))
    (consumerExec : Except String (Option ConsumeData)) (nowIso : String) : RunResult :=
  match producerExec with
  | .error _ =>
      { abortedAt := some .producerStage, producerRan := true, reachedConsumer := false
        savedLock := none, expectedHash := none, observedHash := none, verification := none }
  | .ok fetched =>
      let targetAppHash := extractTargetHash fetched
      let saved :=
        match targetAppHash with
        | some h => if truthyS h then some (saveLockState consumeApp h nowIso) else none
        | none => none
      consumerStage true saved targetAppHash consumerExec

/-- The coordinator `main` of test-full-flow.js: read the lock, run the
permission setup (a non-`already exists` failure there is fatal), then
reuse the stored digest iff the matching record's `secretHash` is truthy,
else provision; finally run the consumer and compare. -/
def mainModel (lockFile : Option LockData) (consumeApp : String) (setup : SetupOutcome)
    (producerExec : Except String (Option TargetData))
    (consumerExec : Except String (Option ConsumeData)) (nowIso : String) : RunResult :=
  let existingState := getLockState lockFile consumeApp
  match setup with
  | .threwOther _ =>
      { abortedAt := some .setupStage, producerRan := false, reachedConsumer := false
        savedLock := none, expectedHash := none, observedHash := none, verification := none }
  | _ =>
      match existingState with
      | some st =>
          if truthyOS st.secretHash then
            consumerStage false none st.secretHash consumerExec
          else
            provisionThenConsume consumeApp producerExec consumerExec nowIso
      | none => provisionThenConsume consumeApp producerExec consumerExec nowIso

/-- The reuse test `existingState && existingState.secretHash` of `main`,
as a standalone predicate on the run's inputs. -/
def reuseFlag (lockFile : Option LockData) (consumeApp : String) : Bool :=
  match getLockState lockFile consumeApp with
  | some st => truthyOS st.secretHash
  | none => false

/-! ## Helper lemmas (shared) -/

theorem consumerStage_producerRan (producerRan : Bool) (saved : Option LockData)
    (expected : Option String) (consumerExec : Except String (Option ConsumeData)) :
    (consumerStage producerRan saved expected consumerExec).producerRan = producerRan := by
  cases consumerExec <;> rfl

theorem consumerStage_savedLock (producerRan : Bool) (saved : Option LockData)
    (expected : Option String) (consumerExec : Except String (Option ConsumeData)) :
    (consumerStage producerRan saved expected consumerExec).savedLock = saved := by
  cases consumerExec <;> rfl

theorem consumerStage_expectedHash (producerRan : Bool) (saved : Option LockData)
    (expected : Option String) (consumerExec : Except String (Option ConsumeData)) :
    (consumerStage producerRan saved expected consumerExec).expectedHash = expected := by
  cases consumerExec <;> rfl

theorem consumerStage_reachedConsumer (producerRan : Bool) (saved : Option LockData)
    (expected : Option String) (consumerExec : Except String (Option ConsumeData)) :
    (consumerStage producerRan saved expected consumerExec).reachedConsumer = true := by
  cases consumerExec <;> rfl

theorem consumerStage_abortedAt_ne_producer (producerRan : Bool) (saved : Option LockData)
    (expected : Option String) (consumerExec : Except String (Option ConsumeData)) :
    (consumerStage producerRan saved expected consumerExec).abortedAt ≠ some .producerStage := by
  cases consumerExec <;> simp [consumerStage]

/-- `provisionThenConsume` on a successfully executed producer is the
consumer stage with the extracted digest and the conditional save. -/
theorem provisionThenConsume_ok (consumeApp : String) (fetched : Option TargetData)
    (consumerExec : Except String (Option ConsumeData)) (nowIso : String) :
    provisionThenConsume consumeApp (.ok fetched) consumerExec nowIso
      = consumerStage true
          (match extractTargetHash fetched with
           | some h => if truthyS h then some (saveLockState consumeApp h nowIso) else none
           | none => none)
          (extractTargetHash fetched) consumerExec := rfl

/-- When the extracted digest is falsy nothing is saved. -/
theorem savedLock_none_of_falsy_digest (consumeApp nowIso : String)
    (fetched : Option TargetData)
    (hnd : truthyOS (extractTargetHash fetched) = false) :
    (match extractTargetHash fetched with
     | some h => if truthyS h then some (saveLockState consumeApp h nowIso) else none
     | none => none) = (none : Option LockData) := by
  cases hy : extractTargetHash fetched with
  | none => rfl
  | some h =>
    rw [hy] at hnd
    have hf : truthyS h = false := hnd
    simp [hf]

theorem provisionThenConsume_producerRan (consumeApp : String)
    (producerExec : Except String (Option TargetData))
    (consumerExec : Except String (Option ConsumeData)) (nowIso : String) :
    (provisionThenConsume consumeApp producerExec consumerExec nowIso).producerRan = true := by
  cases producerExec with
  | error _ => rfl
  | ok fetched => exact consumerStage_producerRan ..

/-- Unfolding of the coordinator `main` once the setup push has gone
through (resolved or warned `already exists`). -/
theorem mainModel_pushedOk (lockFile : Option LockData) (consumeApp : String)
    (producerExec : Except String (Option TargetData))
    (consumerExec : Except String (Option ConsumeData)) (nowIso : String) :
    mainModel lockFile consumeApp .pushedOk producerExec consumerExec nowIso
      = match getLockState lockFile consumeApp with
        | some st =>
            if truthyOS st.secretHash then
              consumerStage false none st.secretHash consumerExec
            else
              provisionThenConsume consumeApp producerExec consumerExec nowIso
        | none => provisionThenConsume consumeApp producerExec consumerExec nowIso := rfl

/-! ## Claim theorems -/

/-- Claim C1 (code bug at this input): on a producer run whose store push
throws a network error, the producer still completes and its `result.json`
carries the generated digest with `smsInfo.pushed = false`; the
coordinator, fetching exactly that result, persists a Fingerprint Record
with that digest anyway — it never consults the result's success flag. The
invariant that only digests of successfully pushed secrets are recorded is
violated. -/
theorem c1_record_persisted_despite_failed_push :
    producerMain (fun _ => "d0hash") (fun _ _ => 0) "2024-01-01T00:00:00.000Z" 0
        (some { privateKey := some "0xkey", smsUrl := "s", rpcUrl := "r" })
        (some "0xCONSUME") "secret-1" "hex" none (fun _ => true) "0xWALLET"
        (.threw "network error")
      = .completed
          { success := false, secretName := "secret-1", dedicatedAddress := none
            secretInfoHash := "d0hash", secretInfoType := "hex"
            secretInfoGeneratedAt := "2024-01-01T00:00:00.000Z"
            secretInfoMetadata := .hexFmt 256, smsPushed := false
            smsError := some "network error" } ∧
    (mainModel none "0xCONSUME" .pushedOk
        (.ok (some { success := false, secretInfoHash := some "d0hash"
                     generatedSecretSha256 := none }))
        (.ok none) "2024-01-01T00:10:00.000Z").savedLock
      = some { appAddress := some "0xCONSUME", secretHash := some "d0hash"
               timestamp := some "2024-01-01T00:10:00.000Z" } := by
  exact ⟨by decide, rfl⟩

/-- Claim C2 counterexample: a persisted record exists whose
`appAddress` equals this run's target consumer, yet because its stored
digest is the empty string the coordinator does not enter reuse — the
producer execution runs. The claimed iff (record exists ∧ identity
matches) is therefore false as stated. -/
theorem c2_matching_record_without_digest_still_provisions :
    (getLockState (some { appAddress := some "0xCONSUME", secretHash := some ""
                          timestamp := none }) "0xCONSUME").isSome = true ∧
    (mainModel (some { appAddress := some "0xCONSUME", secretHash := some ""
                       timestamp := none })
        "0xCONSUME" .pushedOk (.ok none) (.ok none) "ts").producerRan = true := by
  exact ⟨rfl, rfl⟩

/-- Claim C2 (amended): the coordinator skips the producer execution iff a
persisted record exists, its `appAddress` equals the target consumer, and
its stored digest is truthy; in that reuse case the verification
expected digest is exactly the stored digest and no new record is
written. -/
theorem c2_reuse_iff_matching_record_with_truthy_digest
    (lockFile : Option LockData) (consumeApp : String)
    (producerExec : Except String (Option TargetData))
    (consumerExec : Except String (Option ConsumeData)) (nowIso : String) :
    ((mainModel lockFile consumeApp .pushedOk producerExec consumerExec nowIso).producerRan
        = !reuseFlag lockFile consumeApp) ∧
    (∀ st, getLockState lockFile consumeApp = some st → truthyOS st.secretHash = true →
      (mainModel lockFile consumeApp .pushedOk producerExec consumerExec nowIso).expectedHash
          = st.secretHash ∧
      (mainModel lockFile consumeApp .pushedOk producerExec consumerExec nowIso).savedLock
          = none) := by
  constructor
  · rw [mainModel_pushedOk, reuseFlag]
    cases hg : getLockState lockFile consumeApp with
    | none => simp [provisionThenConsume_producerRan]
    | some st =>
      by_cases h : truthyOS st.secretHash = true
      · simp [h, consumerStage_producerRan]
      · simp [Bool.not_eq_true] at h
        simp [h, provisionThenConsume_producerRan]
  · intro st hst htr
    rw [mainModel_pushedOk, hst]
    simp [htr, consumerStage_expectedHash, consumerStage_savedLock]

/-- Claim C3 counterexample: in a run with no prior record, the producer
task completes but fetching its result fails (`fetchResult` returns
`null`); no Fingerprint Record is written — but, contrary to the claim,
the run is not aborted: the consumer stage is still reached and the
comparison runs with an absent expected digest. -/
theorem c3_fetch_failure_reaches_consumer_stage :
    (mainModel none "0xCONSUME" .pushedOk
        (.ok (fetchResult (Except.error "Error fetching result")))
        (.ok (some { hashesSha256 := some "d2", preview := none })) "ts").reachedConsumer
      = true ∧
    (mainModel none "0xCONSUME" .pushedOk
        (.ok (fetchResult (Except.error "Error fetching result")))
        (.ok (some { hashesSha256 := some "d2", preview := none })) "ts").savedLock = none ∧
    (mainModel none "0xCONSUME" .pushedOk
        (.ok (fetchResult (Except.error "Error fetching result")))
        (.ok (some { hashesSha256 := some "d2", preview := none })) "ts").abortedAt
      = none := by
  exact ⟨rfl, rfl, rfl⟩

/-- Claim C3 (amended): in a needs-provision run, a throw from the
producer execution (submission failure, task FAILED/TIMEDOUT) aborts the
run before the consumer stage with no record written; but a result-fetch
failure, malformed result or result missing the digest field does not
abort — no Fingerprint Record is written and the run continues to the
consumer stage. -/
theorem c3_failure_before_digest_writes_no_record
    (lockFile : Option LockData) (consumeApp : String) (fetched : Option TargetData)
    (consumerExec : Except String (Option ConsumeData)) (msg nowIso : String)
    (hnr : reuseFlag lockFile consumeApp = false)
    (hnd : truthyOS (extractTargetHash fetched) = false) :
    ((mainModel lockFile consumeApp .pushedOk (.ok fetched) consumerExec nowIso).savedLock
        = none ∧
     (mainModel lockFile consumeApp .pushedOk (.ok fetched) consumerExec nowIso).reachedConsumer
        = true) ∧
    ((mainModel lockFile consumeApp .pushedOk (.error msg) consumerExec nowIso).abortedAt
        = some .producerStage ∧
     (mainModel lockFile consumeApp .pushedOk (.error msg) consumerExec nowIso).savedLock
        = none ∧
     (mainModel lockFile consumeApp .pushedOk (.error msg) consumerExec nowIso).reachedConsumer
        = false) := by
  constructor
  · rw [mainModel_pushedOk]
    cases hg : getLockState lockFile consumeApp with
    | none =>
      rw [provisionThenConsume_ok, savedLock_none_of_falsy_digest _ _ _ hnd]
      exact ⟨consumerStage_savedLock .., consumerStage_reachedConsumer ..⟩
    | some st =>
      have hnr2 : truthyOS st.secretHash = false := by
        rw [reuseFlag, hg] at hnr; exact hnr
      rw [provisionThenConsume_ok, savedLock_none_of_falsy_digest _ _ _ hnd]
      simp [hnr2, consumerStage_savedLock, consumerStage_reachedConsumer]
  · rw [mainModel_pushedOk]
    cases hg : getLockState lockFile consumeApp with
    | none => exact ⟨rfl, rfl, rfl⟩
    | some st =>
      have hnr2 : truthyOS st.secretHash = false := by
        rw [reuseFlag, hg] at hnr; exact hnr
      simp [hnr2, provisionThenConsume]

/-- Claim C4: the raw secret value is not durable. The producer's
`result.json` object is unchanged if the generated value is replaced by
any other string with the same digest, type, timestamp and metadata (it
simply never reads the `secret` field), and the persisted lock record is
at most the consumer address, the digest extracted from the producer's
result, and a timestamp. -/
theorem c4_raw_value_never_persisted
    (sd : SecretData) (v : String) (pushResult : PushResult) (secretName : String)
    (lockFile : Option LockData) (consumeApp : String) (fetched : Option TargetData)
    (consumerExec : Except String (Option ConsumeData)) (nowIso : String) :
    buildOutput pushResult secretName { sd with secret := v }
        = buildOutput pushResult secretName sd ∧
    ((mainModel lockFile consumeApp .pushedOk (.ok fetched) consumerExec nowIso).savedLock
        = none ∨
     (mainModel lockFile consumeApp .pushedOk (.ok fetched) consumerExec nowIso).savedLock
        = (extractTargetHash fetched).map fun h => saveLockState consumeApp h nowIso) := by
  refine ⟨rfl, ?_⟩
  rw [mainModel_pushedOk]
  cases hg : getLockState lockFile consumeApp with
  | some st =>
    by_cases h : truthyOS st.secretHash = true
    · simp [h, consumerStage_savedLock]
    · simp only [Bool.not_eq_true] at h
      simp only [h, if_false, Bool.false_eq_true]
      rw [provisionThenConsume]
      cases hx : extractTargetHash fetched with
      | none => simp [consumerStage_savedLock]
      | some d =>
        by_cases hd : truthyS d = true
        · simp [hd, consumerStage_savedLock]
        · simp only [Bool.not_eq_true] at hd
          simp [hd, consumerStage_savedLock]
  | none =>
    rw [provisionThenConsume]
    cases hx : extractTargetHash fetched with
    | none => simp [consumerStage_savedLock]
    | some d =>
      by_cases hd : truthyS d = true
      · simp [hd, consumerStage_savedLock]
      · simp only [Bool.not_eq_true] at hd
        simp [hd, consumerStage_savedLock]

/-- Claim C5 counterexample: a store push that fails with a network error
inside the producer app is not fatal — the producer run completes and
writes its result object with `success = false`, and the coordinator run
that consumed such a result continues through the consumer stage to the
comparison instead of aborting. -/
theorem c5_network_push_failure_does_not_abort :
    producerMain (fun _ => "d1") (fun _ _ => 0) "t" 0
        (some { privateKey := some "0xkey", smsUrl := "s", rpcUrl := "r" })
        (some "0xCONSUME") "n" "random" none (fun _ => true) "0xW"
        (.threw "connection refused")
      = .completed
          { success := false, secretName := "n", dedicatedAddress := none
            secretInfoHash := "d1", secretInfoType := "random"
            secretInfoGeneratedAt := "t", secretInfoMetadata := .base64Fmt 32
            smsPushed := false, smsError := some "connection refused" } ∧
    (mainModel none "0xCONSUME" .pushedOk
        (.ok (some { success := false, secretInfoHash := some "d1"
                     generatedSecretSha256 := none }))
        (.ok (some { hashesSha256 := some "d2", preview := none })) "ts").abortedAt
      = none ∧
    (mainModel none "0xCONSUME" .pushedOk
        (.ok (some { success := false, secretInfoHash := some "d1"
                     generatedSecretSha256 := none }))
        (.ok (some { hashesSha256 := some "d2", preview := none })) "ts").reachedConsumer
      = true := by
  exact ⟨rfl, rfl, rfl⟩

/-- Claim C5 (amended): only the coordinator's permission-setup push obeys
the claim — a non-`already exists` failure there aborts the run before any
stage, while an `already exists` failure changes nothing; a push failure
inside the producer app is merely recorded in the result
(`smsInfo.pushed = false`) and never aborts. -/
theorem c5_setup_push_failure_fatal_producer_push_failure_recorded
    (lockFile : Option LockData) (consumeApp msg : String)
    (producerExec : Except String (Option TargetData))
    (consumerExec : Except String (Option ConsumeData)) (nowIso : String)
    (isAddr : String → Bool) (wallet err secretName : String) (target : Option String)
    (sd : SecretData) :
    (mainModel lockFile consumeApp (.threwOther msg) producerExec consumerExec nowIso
        = { abortedAt := some .setupStage, producerRan := false, reachedConsumer := false
            savedLock := none, expectedHash := none, observedHash := none
            verification := none }) ∧
    (mainModel lockFile consumeApp .threwAlreadyExists producerExec consumerExec nowIso
        = mainModel lockFile consumeApp .pushedOk producerExec consumerExec nowIso) ∧
    (buildOutput (pushSecretToSMS isAddr wallet target (.threw err)) secretName sd).smsPushed
        = false := by
  refine ⟨rfl, rfl, ?_⟩
  show (pushSecretToSMS isAddr wallet target (.threw err)).success = false
  rw [pushSecretToSMS]
  split <;> rfl

/-- Claim C6 counterexample: an absent observed digest and two present but
unequal digests produce the very same verification output — there is no
`MissingObserved` reason, so the three claimed outcomes are not
distinguishable. -/
theorem c6_missing_observed_not_distinguished :
    verifyModel (some "d1") none = verifyModel (some "d1") (some "d2") ∧
    (verifyModel (some "d1") none).matched = false ∧
    (verifyModel (some "d1") none).missingExpectedNote = false := by
  exact ⟨rfl, rfl, rfl⟩

/-- Claim C6 (amended): verification reports `matched = true` exactly when
both digests are present (truthy) and equal; on failure the only extra
distinction made is a missing-expected note, emitted iff the expected
digest is not truthy — a missing observed digest is not distinguished from
an inequality. -/
theorem c6_matched_iff_both_present_and_equal (e o : Option String) :
    (verifyModel e o).matched = (truthyOS e && truthyOS o && e == o) ∧
    (verifyModel e o).missingExpectedNote
        = (!(truthyOS e && truthyOS o && e == o) && !truthyOS e) := by
  rw [verifyModel]
  split
  next h => simp [h]
  next h =>
    simp only [Bool.not_eq_true] at h
    simp [h]

/-- Claim C7 counterexample: a status feed that emits nothing (and never
completes) leaves `waitForTask` pending — no timeout error is raised, the
await simply never settles. -/
theorem c7_silent_feed_never_settles :
    waitForTask [] false = .pending := rfl

/-- Claim C7 (amended): the wait has no `maxWait` bound at all. It settles
only when the feed emits a terminal status (COMPLETED resolves with the
task; FAILED rejects naming the status) or the feed completes; any prefix
of non-settling events (non-terminal statuses, absent tasks, error
callbacks) is skipped, and a feed of only such events leaves the wait
pending indefinitely. -/
theorem c7_wait_settles_only_on_terminal_or_completion
    (events rest : List FeedEvent)
    (h : ∀ e ∈ events, settleEvent e = none) :
    waitForTask events false = .pending ∧
    waitForTask events true = .resolvedEmpty ∧
    waitForTask (events ++ .status (some { statusName := "COMPLETED" }) "done" :: rest) false
        = .resolvedTask { statusName := "COMPLETED" } ∧
    waitForTask (events ++ .status (some { statusName := "FAILED" }) "f" :: rest) false
        = .rejected "Task ended with status FAILED" := by
  induction events with
  | nil => exact ⟨rfl, rfl, rfl, rfl⟩
  | cons e es ih =>
    have he : settleEvent e = none := h e (List.mem_cons_self e es)
    have ih2 := ih fun x hx => h x (List.mem_cons_of_mem e hx)
    refine ⟨?_, ?_, ?_, ?_⟩
    · simpa only [waitForTask, he] using ih2.1
    · simpa only [waitForTask, he] using ih2.2.1
    · simpa only [List.cons_append, waitForTask, he] using ih2.2.2.1
    · simpa only [List.cons_append, waitForTask, he] using ih2.2.2.2

/-- Claim C7 witness: at a concrete feed (one status event with no task,
one `Task not found` error callback) every part of the amended statement
evaluates as proved. -/
theorem c7_wait_settles_only_on_terminal_or_completion_witness :
    waitForTask [.status none "st", .feedError "Task not found"] false = .pending ∧
    waitForTask [.status none "st", .feedError "Task not found"] true = .resolvedEmpty ∧
    waitForTask ([.status none "st", .feedError "Task not found"]
        ++ .status (some { statusName := "COMPLETED" }) "done" :: []) false
      = .resolvedTask { statusName := "COMPLETED" } ∧
    waitForTask ([.status none "st", .feedError "Task not found"]
        ++ .status (some { statusName := "FAILED" }) "f" :: []) false
      = .rejected "Task ended with status FAILED" :=
  c7_wait_settles_only_on_terminal_or_completion
    [.status none "st", .feedError "Task not found"] [] (by decide)

/-- Claim C8: a persisted record whose `appAddress` differs from the
current run's target consumer is treated as no prior record
(`getLockState` discards it) and the coordinator re-provisions: the
producer execution runs. -/
theorem c8_mismatched_identity_record_never_reused
    (record : LockData) (consumeApp : String)
    (producerExec : Except String (Option TargetData))
    (consumerExec : Except String (Option ConsumeData)) (nowIso : String)
    (h : record.appAddress ≠ some consumeApp) :
    getLockState (some record) consumeApp = none ∧
    (mainModel (some record) consumeApp .pushedOk producerExec consumerExec nowIso).producerRan
        = true := by
  have hg : getLockState (some record) consumeApp = none := by
    rw [getLockState, if_neg h]
  refine ⟨hg, ?_⟩
  rw [mainModel_pushedOk, hg]
  exact provisionThenConsume_producerRan ..

/-- Claim C8 witness: a record for consumer `0xAAAA` is ignored when the
target consumer is `0xBBBB` and the producer stage runs. -/
theorem c8_mismatched_identity_record_never_reused_witness :
    getLockState (some { appAddress := some "0xAAAA", secretHash := some "d1"
                         timestamp := none }) "0xBBBB" = none ∧
    (mainModel (some { appAddress := some "0xAAAA", secretHash := some "d1"
                       timestamp := none })
        "0xBBBB" .pushedOk (.ok none) (.ok none) "ts").producerRan = true :=
  c8_mismatched_identity_record_never_reused
    { appAddress := some "0xAAAA", secretHash := some "d1", timestamp := none }
    "0xBBBB" (.ok none) (.ok none) "ts" (by decide)

/-- Claim C9: for every secret type — the recognised ones and the default
fallback alike — the digest of the generated secret is the SHA-256 hex
hash applied to exactly the generated value string, and an unrecognised
type falls through to the same value construction as `random`. -/
theorem c9_digest_is_hash_of_exact_value (sha256hex : String → String)
    (rb : Nat → Nat → Nat) (timestamp : String) (epochMs : Nat) (secretType : String) :
    (generateSecret sha256hex rb timestamp epochMs secretType).hash
        = sha256hex (generateSecret sha256hex rb timestamp epochMs secretType).secret ∧
    (generateSecret sha256hex rb timestamp epochMs "unrecognized-type").secret
        = (generateSecret sha256hex rb timestamp epochMs "random").secret := by
  exact ⟨rfl, rfl⟩

/-- Claim C10: a persisted record with the matching consumer identity but
an absent or empty `secretHash` is not reused — `getLockState` still
returns it, but the coordinator's truthiness check sends the run through
the producer execution again. -/
theorem c10_falsy_stored_digest_forces_provisioning
    (record : LockData) (consumeApp : String)
    (producerExec : Except String (Option TargetData))
    (consumerExec : Except String (Option ConsumeData)) (nowIso : String)
    (hmatch : record.appAddress = some consumeApp)
    (hfalsy : truthyOS record.secretHash = false) :
    getLockState (some record) consumeApp = some record ∧
    (mainModel (some record) consumeApp .pushedOk producerExec consumerExec nowIso).producerRan
        = true := by
  have hg : getLockState (some record) consumeApp = some record := by
    rw [getLockState, if_pos hmatch]
  refine ⟨hg, ?_⟩
  rw [mainModel_pushedOk, hg]
  simp only [hfalsy, if_false, Bool.false_eq_true]
  exact provisionThenConsume_producerRan ..

/-- Claim C10 witness: a record for the right consumer whose stored digest
is the empty string forces the producer stage to run. -/
theorem c10_falsy_stored_digest_forces_provisioning_witness :
    getLockState (some { appAddress := some "0xCONSUME", secretHash := some ""
                         timestamp := none }) "0xCONSUME"
      = some { appAddress := some "0xCONSUME", secretHash := some "", timestamp := none } ∧
    (mainModel (some { appAddress := some "0xCONSUME", secretHash := some ""
                       timestamp := none })
        "0xCONSUME" .pushedOk (.ok none) (.ok none) "ts").producerRan = true :=
  c10_falsy_stored_digest_forces_provisioning
    { appAddress := some "0xCONSUME", secretHash := some "", timestamp := none }
    "0xCONSUME" (.ok none) (.ok none) "ts" rfl rfl

/-- Claim C3 witness: with no prior record, a failed result fetch writes
no record while the consumer stage is still reached, and a producer-stage
throw aborts before the consumer stage. -/
theorem c3_failure_before_digest_writes_no_record_witness :
    ((mainModel none "0xCONSUME" .pushedOk (.ok none) (.ok none) "ts").savedLock = none ∧
     (mainModel none "0xCONSUME" .pushedOk (.ok none) (.ok none) "ts").reachedConsumer
        = true) ∧
    ((mainModel none "0xCONSUME" .pushedOk (.error "Task ended with status FAILED")
        (.ok none) "ts").abortedAt = some .producerStage ∧
     (mainModel none "0xCONSUME" .pushedOk (.error "Task ended with status FAILED")
        (.ok none) "ts").savedLock = none ∧
     (mainModel none "0xCONSUME" .pushedOk (.error "Task ended with status FAILED")
        (.ok none) "ts").reachedConsumer = false) :=
  c3_failure_before_digest_writes_no_record none "0xCONSUME" none (.ok none)
    "Task ended with status FAILED" "ts" rfl rfl

end POCAppSecret
